import Mathlib

/-!
Verification of the banana-slides single-slide generation pipeline.

The development shallowly embeds the deterministic layout / rendering /
export core of the repository:

* `src/backend/services/ai_providers/image/ppt_agent.py` (suffix `PA`),
* `src/backend/services/ai_providers/image/openai_provider.py` (suffix `OA`),
* `src/backend/services/ai_providers/image/ppt_agent_provider.py` (suffix `PP`),
* `src/backend/services/export_service.py`.

Canvas coordinates are python-pptx EMU values; `Inches(x)` is `914400 * x`.
Python performs true division on these quantities, so all geometry is
modelled over `ℚ` (exact), and a division whose denominator is zero is
modelled as the `ZeroDivisionError` that Python raises (`pydiv`).
-/

/-- EMU per inch, as used by `pptx.util.Inches`. -/
def emuPerInch : ℚ := 914400

/-- `Inches(x)` from python-pptx: `x * 914400` EMU. -/
def inches (x : ℚ) : ℚ := x * emuPerInch

/-- Slide width: `prs.slide_width = Inches(16)` in every pipeline variant. -/
def slideW : ℚ := inches 16

/-- Slide height: `prs.slide_height = Inches(9)`. -/
def slideH : ℚ := inches 9

/-- Python true division: raises `ZeroDivisionError` on a zero denominator,
otherwise yields the exact quotient. -/
def pydiv (a b : ℚ) : Except String ℚ :=
  if b = 0 then Except.error "ZeroDivisionError" else Except.ok (a / b)

/-- A computed rectangle `(x, y, width, height)` on the canvas, in EMU. -/
structure Region where
  x : ℚ
  y : ℚ
  w : ℚ
  h : ℚ
deriving DecidableEq, Repr

/-- Membership of a point in a region, reading the region as the closed
rectangle `[x, x+w] × [y, y+h]` (empty whenever `w < 0` or `h < 0`). -/
def inRegion (reg : Region) (p : ℚ × ℚ) : Prop :=
  reg.x ≤ p.1 ∧ p.1 ≤ reg.x + reg.w ∧ reg.y ≤ p.2 ∧ p.2 ≤ reg.y + reg.h

/-- Grid layout constants of `SlideRenderer.render_grid`
(`ppt_agent.py` lines 246-248, identical in `openai_provider.py`):
the content area starts below the header band at `Inches(1.6)`. -/
def gridStartY : ℚ := inches (8/5)

/-- `margin = Inches(0.5)` in both grid variants and in `_greedy_grid`. -/
def gridMargin : ℚ := inches (1/2)

/-- `gap = Inches(0.3)` in both grid variants and in `_greedy_grid`. -/
def gridGap : ℚ := inches (3/10)

/-- The canvas minus the reserved header band (the area below `gridStartY`). -/
def inContentBand (p : ℚ × ℚ) : Prop :=
  0 ≤ p.1 ∧ p.1 ≤ slideW ∧ gridStartY ≤ p.2 ∧ p.2 ≤ slideH

/-- Column count of `SlideRenderer.render_grid` (`ppt_agent.py` lines 250-255,
same table in `openai_provider.py` lines 234-239):
`count <= 3` gives `count` columns, `count == 4` gives 2, otherwise 3. -/
def gridCols (n : ℕ) : ℕ :=
  if n ≤ 3 then n else if n = 4 then 2 else 3

/-- Row count of `SlideRenderer.render_grid`: `count <= 3` gives 1,
`count == 4` gives 2, otherwise `math.ceil(count / 3)`. -/
def gridRows (n : ℕ) : ℕ :=
  if n ≤ 3 then 1 else if n = 4 then 2 else Nat.ceil ((n : ℚ) / 3)

/-- `cw = (self.W - margin * 2 - gap * (c - 1)) / c` (value of the division,
meaningful for `c ≥ 1`). -/
def cellW (c : ℕ) : ℚ :=
  (slideW - 2 * gridMargin - gridGap * ((c : ℚ) - 1)) / (c : ℚ)

/-- `ch = (self.H - start_y - margin - gap * (r - 1)) / r`. -/
def cellH (r : ℕ) : ℚ :=
  (slideH - gridStartY - gridMargin - gridGap * ((r : ℚ) - 1)) / (r : ℚ)

/-- The card rectangle of item `i` in `render_grid`:
`row = i // c`, `col = i % c`, `x = margin + col * (cw + gap)`,
`y = start_y + row * (ch + gap)`, size `cw × ch`. -/
def gridRegion (n i : ℕ) : Region :=
  { x := gridMargin + ((i % gridCols n : ℕ) : ℚ) * (cellW (gridCols n) + gridGap)
    y := gridStartY + ((i / gridCols n : ℕ) : ℚ) * (cellH (gridRows n) + gridGap)
    w := cellW (gridCols n)
    h := cellH (gridRows n) }

/-- `SlideRenderer.render_grid` of `ppt_agent.py` (lines 244-264): chooses the
column/row table, computes `cw` and `ch` by true division (no `count == 0`
guard, so `count = 0` makes `c = 0` and the first division raise), then draws
one card per item at its row-major cell. -/
def renderGridPA (n : ℕ) : Except String (List Region) :=
  (pydiv (slideW - 2 * gridMargin - gridGap * ((gridCols n : ℚ) - 1)) (gridCols n)).bind fun cw =>
  (pydiv (slideH - gridStartY - gridMargin - gridGap * ((gridRows n : ℚ) - 1)) (gridRows n)).bind fun ch =>
  Except.ok ((List.range n).map fun i =>
    { x := gridMargin + ((i % gridCols n : ℕ) : ℚ) * (cw + gridGap)
      y := gridStartY + ((i / gridCols n : ℕ) : ℚ) * (ch + gridGap)
      w := cw
      h := ch })

/-- `SlideRenderer.render_grid` of `openai_provider.py` (lines 224-253): same
table and geometry, but short-circuits on `count == 0` and additionally clamps
`c = max(1, c)`, `r = max(1, r)` before dividing. -/
def renderGridOA (n : ℕ) : Except String (List Region) :=
  if n = 0 then Except.ok []
  else
    let c := max 1 (gridCols n)
    let r := max 1 (gridRows n)
    (pydiv (slideW - 2 * gridMargin - gridGap * ((c : ℚ) - 1)) c).bind fun cw =>
    (pydiv (slideH - gridStartY - gridMargin - gridGap * ((r : ℚ) - 1)) r).bind fun ch =>
    Except.ok ((List.range n).map fun i =>
      { x := gridMargin + ((i % c : ℕ) : ℚ) * (cw + gridGap)
        y := gridStartY + ((i / c : ℕ) : ℚ) * (ch + gridGap)
        w := cw
        h := ch })

/-- Column count of `SlideRenderer._greedy_grid` (`ppt_agent_provider.py`
lines 161-168): `count == 3` gives 3, `count == 4` gives 2, `count in [5, 6]`
gives 3, every other count (including 0, 1 and 2) falls to the `else` branch
with 3 columns. -/
def greedyCols (n : ℕ) : ℕ :=
  if n = 3 then 3 else if n = 4 then 2 else if n = 5 ∨ n = 6 then 3 else 3

/-- Row count of `SlideRenderer._greedy_grid`: `count == 3` gives 1,
`count == 4` gives 2, `count in [5, 6]` gives 2, otherwise
`math.ceil(count / 3)` (so `count = 0` gives 0 rows). -/
def greedyRows (n : ℕ) : ℕ :=
  if n = 3 then 1 else if n = 4 then 2 else if n = 5 ∨ n = 6 then 2
  else Nat.ceil ((n : ℚ) / 3)

/-- `SlideRenderer._greedy_grid` of `ppt_agent_provider.py` (lines 158-171):
computes `cw` then `ch` by true division (no zero guard: `count = 0` gives
`r = 0` and the `ch` division raises) and returns the list of
`(x, y, cw, ch)` slots, row-major. `render_grid` calls it with
`start_y = Inches(1.8)`. -/
def greedyGridPP (n : ℕ) (startY : ℚ) : Except String (List Region) :=
  (pydiv (slideW - 2 * gridMargin - gridGap * ((greedyCols n : ℚ) - 1)) (greedyCols n)).bind fun cw =>
  (pydiv (slideH - startY - gridMargin - gridGap * ((greedyRows n : ℚ) - 1)) (greedyRows n)).bind fun ch =>
  Except.ok ((List.range n).map fun i =>
    { x := gridMargin + ((i % greedyCols n : ℕ) : ℚ) * (cw + gridGap)
      y := startY + ((i / greedyCols n : ℕ) : ℚ) * (ch + gridGap)
      w := cw
      h := ch })

/-- Timeline constants of `SlideRenderer.render_timeline`:
`margin = Inches(0.5)` and the spine at `line_y = Inches(3.0)`. -/
def tlMargin : ℚ := inches (1/2)

/-- The spine vertical offset `line_y = Inches(3.0)`. -/
def tlLineY : ℚ := inches 3

/-- Shapes added to the slide by `render_timeline`, in the order the source
adds them: the horizontal spine rectangle, then per item the outer and inner
spine marker dots and the content card.  (Text boxes, pictures and colors are
not tracked; only which geometric shapes get drawn.) -/
inductive TShape where
  | spine
  | dotOuter
  | dotInner
  | card
deriving DecidableEq, Repr

/-- The per-item content card of `render_timeline`:
`cx = margin + i * slot_w + slot_w / 2`,
card at `(cx - slot_w/2 + Inches(0.1), line_y + Inches(0.4))` with size
`(slot_w - Inches(0.2)) × (H - card_y - Inches(0.5))`. -/
def timelineCard (slotW : ℚ) (i : ℕ) : Region :=
  { x := tlMargin + (i : ℚ) * slotW + slotW / 2 - slotW / 2 + inches (1/10)
    y := tlLineY + inches (2/5)
    w := slotW - inches (1/5)
    h := slideH - (tlLineY + inches (2/5)) - inches (1/2) }

/-- `SlideRenderer.render_timeline` of `ppt_agent.py` (lines 266-299): the
spine rectangle is added to the slide first, then
`slot_w = (self.W - margin * 2) / count` is computed with no `count == 0`
guard; each item then gets its two marker dots and its card.  The first
component records the shapes that have been added to the (mutable) slide when
the call returns or raises; the second is the outcome. -/
def renderTimelinePA (n : ℕ) : List TShape × Except String (List Region) :=
  match pydiv (slideW - 2 * tlMargin) ((n : ℕ) : ℚ) with
  | Except.error e => ([TShape.spine], Except.error e)
  | Except.ok slotW =>
      (TShape.spine ::
        (List.range n).flatMap (fun _ => [TShape.dotOuter, TShape.dotInner, TShape.card]),
       Except.ok ((List.range n).map fun i => timelineCard slotW i))

/-- `SlideRenderer.render_timeline` of `openai_provider.py` (lines 255-292):
identical geometry but with the `if count == 0: return` guard placed before
any shape is drawn and before `slot_w` is computed. -/
def renderTimelineOA (n : ℕ) : List TShape × Except String (List Region) :=
  if n = 0 then ([], Except.ok [])
  else
    match pydiv (slideW - 2 * tlMargin) ((n : ℕ) : ℚ) with
    | Except.error e => ([TShape.spine], Except.error e)
    | Except.ok slotW =>
        (TShape.spine ::
          (List.range n).flatMap (fun _ => [TShape.dotOuter, TShape.dotInner, TShape.card]),
         Except.ok ((List.range n).map fun i => timelineCard slotW i))

/-! ### Claims C1 and C3: the zero-item short-circuit -/

/-- Helper: `_greedy_grid` row count at `count = 0` is `ceil(0 / 3) = 0`. -/
lemma greedyRows_zero : greedyRows 0 = 0 := by
  simp [greedyRows]

/-- Helper: `_greedy_grid(0, Inches(1.8))` divides `ch` by `r = 0` and raises
`ZeroDivisionError` (used for claims about the zero-item grid and about
dispatch with absent items). -/
lemma greedyGridPP_zero : greedyGridPP 0 (inches (9/5)) = Except.error "ZeroDivisionError" := by
  have h3 : ((greedyCols 0 : ℕ) : ℚ) ≠ 0 := by norm_num [greedyCols]
  simp [greedyGridPP, pydiv, h3, greedyRows_zero, Except.bind]

/-- C1: for an item count of 0, `render_timeline` in `ppt_agent.py` does NOT
short-circuit: it draws the spine and then raises `ZeroDivisionError`
computing `slot_w`; the `openai_provider.py` duplicate has the required
`count == 0` guard and returns with nothing drawn and zero regions. -/
theorem timeline_zero_items_behavior :
    (renderTimelinePA 0).2 = Except.error "ZeroDivisionError"
    ∧ (renderTimelinePA 0).1 = [TShape.spine]
    ∧ renderTimelineOA 0 = ([], Except.ok []) := by
  refine ⟨?_, ?_, rfl⟩ <;> simp [renderTimelinePA, pydiv]

/-- C3: for an item count of 0, `render_grid` in `ppt_agent.py` computes
`c = 0` and raises `ZeroDivisionError` on the cell-width division, and
`_greedy_grid` in `ppt_agent_provider.py` computes `r = 0` and raises on the
cell-height division; only the `openai_provider.py` duplicate short-circuits
with zero regions and no error. -/
theorem grid_zero_items_behavior :
    renderGridPA 0 = Except.error "ZeroDivisionError"
    ∧ greedyGridPP 0 (inches (9/5)) = Except.error "ZeroDivisionError"
    ∧ renderGridOA 0 = Except.ok [] := by
  refine ⟨?_, greedyGridPP_zero, rfl⟩
  simp [renderGridPA, pydiv, gridCols, Except.bind]

/-! ### Claim C2: the grid layout table and its geometry -/

/-- `math.ceil(n / 3)` over the rationals agrees with natural division
rounding up. -/
lemma ceil_cast_div_three (n : ℕ) : Nat.ceil ((n : ℚ) / 3) = (n + 2) / 3 := by
  rcases Nat.eq_zero_or_pos n with h0 | hpos
  · subst h0; norm_num
  · have hq : (n + 2) / 3 ≠ 0 := by omega
    rw [Nat.ceil_eq_iff hq]
    have h1 : 3 * ((n + 2) / 3) ≤ n + 2 := by omega
    have h2 : n ≤ 3 * ((n + 2) / 3) := by omega
    have h3 : 1 ≤ (n + 2) / 3 := by omega
    constructor
    · rw [Nat.cast_sub h3, Nat.cast_one, lt_div_iff₀ (by norm_num : (0:ℚ) < 3)]
      have hc1 : (3:ℚ) * (((n + 2) / 3 : ℕ) : ℚ) ≤ (n : ℚ) + 2 := by exact_mod_cast h1
      linarith
    · rw [div_le_iff₀ (by norm_num : (0:ℚ) < 3)]
      have hc2 : (n : ℚ) ≤ 3 * (((n + 2) / 3 : ℕ) : ℚ) := by exact_mod_cast h2
      linarith

lemma gridCols_pos {n : ℕ} (hn : 1 ≤ n) : 1 ≤ gridCols n := by
  unfold gridCols; split_ifs <;> omega

lemma gridRows_eq_of_five_le {n : ℕ} (h : 5 ≤ n) : gridRows n = (n + 2) / 3 := by
  unfold gridRows
  rw [if_neg (by omega), if_neg (by omega), ceil_cast_div_three]

lemma gridCols_eq_of_five_le {n : ℕ} (h : 5 ≤ n) : gridCols n = 3 := by
  unfold gridCols; rw [if_neg (by omega), if_neg (by omega)]

lemma gridRows_pos {n : ℕ} (hn : 1 ≤ n) : 1 ≤ gridRows n := by
  rcases Nat.lt_or_ge n 5 with h | h
  · unfold gridRows; split_ifs <;> omega
  · rw [gridRows_eq_of_five_le h]; omega

/-- Every item index fits in the chosen `columns × rows` cell count. -/
lemma le_gridCols_mul_gridRows {n : ℕ} (hn : 1 ≤ n) :
    n ≤ gridCols n * gridRows n := by
  rcases Nat.lt_or_ge n 5 with h | h
  · unfold gridCols gridRows; split_ifs <;> omega
  · rw [gridCols_eq_of_five_le h, gridRows_eq_of_five_le h]; omega

lemma cellW_add_gap {c : ℕ} (hc : 1 ≤ c) :
    cellW c + gridGap = (slideW - 2 * gridMargin + gridGap) / (c : ℚ) := by
  have hc0 : ((c : ℕ) : ℚ) ≠ 0 := Nat.cast_ne_zero.mpr (by omega)
  unfold cellW
  field_simp
  ring

lemma cellH_add_gap {r : ℕ} (hr : 1 ≤ r) :
    cellH r + gridGap = (slideH - gridStartY - gridMargin + gridGap) / (r : ℚ) := by
  have hr0 : ((r : ℕ) : ℚ) ≠ 0 := Nat.cast_ne_zero.mpr (by omega)
  unfold cellH
  field_simp
  ring

lemma cellW_add_gap_pos {c : ℕ} (hc : 1 ≤ c) : 0 < cellW c + gridGap := by
  rw [cellW_add_gap hc]
  apply div_pos
  · norm_num [slideW, gridMargin, gridGap, inches, emuPerInch]
  · exact_mod_cast Nat.lt_of_lt_of_le Nat.zero_lt_one hc

lemma cellH_add_gap_pos {r : ℕ} (hr : 1 ≤ r) : 0 < cellH r + gridGap := by
  rw [cellH_add_gap hr]
  apply div_pos
  · norm_num [slideH, gridStartY, gridMargin, gridGap, inches, emuPerInch]
  · exact_mod_cast Nat.lt_of_lt_of_le Nat.zero_lt_one hr

/-- The right edge of the last column sits exactly on the right margin. -/
lemma grid_col_right {c : ℕ} (hc : 1 ≤ c) :
    gridMargin + ((c : ℚ) - 1) * (cellW c + gridGap) + cellW c = slideW - gridMargin := by
  have hc0 : ((c : ℕ) : ℚ) ≠ 0 := Nat.cast_ne_zero.mpr (by omega)
  unfold cellW
  field_simp
  ring

/-- The bottom edge of the last row sits exactly on the bottom margin. -/
lemma grid_row_bottom {r : ℕ} (hr : 1 ≤ r) :
    gridStartY + ((r : ℚ) - 1) * (cellH r + gridGap) + cellH r = slideH - gridMargin := by
  have hr0 : ((r : ℕ) : ℚ) ≠ 0 := Nat.cast_ne_zero.mpr (by omega)
  unfold cellH
  field_simp
  ring

/-- Two cells of a 1-D lattice of pitch `d` and extent `w < d` cannot share a
point. -/
lemma slots1d_disjoint {a d w t : ℚ} {k1 k2 : ℕ} (hk : k1 < k2) (hw : w < d)
    (hA : a + (k1 : ℚ) * d ≤ t) (hB : t ≤ a + (k1 : ℚ) * d + w)
    (hC : a + (k2 : ℚ) * d ≤ t) : False := by
  have h0 : (0:ℚ) ≤ w := by linarith
  have hd : (0:ℚ) < d := lt_of_le_of_lt h0 hw
  have hk1 : (k1 : ℚ) + 1 ≤ (k2 : ℚ) := by exact_mod_cast hk
  nlinarith [mul_le_mul_of_nonneg_right hk1 hd.le]

/-- For a positive item count the two divisions in `render_grid` succeed and
the produced card rectangles are the `gridRegion` cells. -/
lemma renderGridPA_ok {n : ℕ} (hn : 1 ≤ n) :
    renderGridPA n = Except.ok ((List.range n).map (gridRegion n)) := by
  have hc : ¬(((gridCols n : ℕ) : ℚ) = 0) :=
    Nat.cast_ne_zero.mpr (by have := gridCols_pos hn; omega)
  have hr : ¬(((gridRows n : ℕ) : ℚ) = 0) :=
    Nat.cast_ne_zero.mpr (by have := gridRows_pos hn; omega)
  unfold renderGridPA pydiv
  rw [if_neg hc, if_neg hr]
  rfl

/-- Each grid cell lies inside the canvas minus the header band. -/
lemma gridRegion_subset {n : ℕ} (hn : 1 ≤ n) {i : ℕ} (hi : i < n) {p : ℚ × ℚ}
    (hp : inRegion (gridRegion n i) p) : inContentBand p := by
  simp only [inRegion, gridRegion] at hp
  obtain ⟨hx1, hx2, hy1, hy2⟩ := hp
  have hc : 1 ≤ gridCols n := gridCols_pos hn
  have hr : 1 ≤ gridRows n := gridRows_pos hn
  have hX : 0 < cellW (gridCols n) + gridGap := cellW_add_gap_pos hc
  have hY : 0 < cellH (gridRows n) + gridGap := cellH_add_gap_pos hr
  have hcol : i % gridCols n < gridCols n := Nat.mod_lt _ (by omega)
  have hrow : i / gridCols n < gridRows n := by
    rw [Nat.div_lt_iff_lt_mul (by omega : 0 < gridCols n)]
    calc i < n := hi
      _ ≤ gridCols n * gridRows n := le_gridCols_mul_gridRows hn
      _ = gridRows n * gridCols n := Nat.mul_comm _ _
  have hcolq : ((i % gridCols n : ℕ) : ℚ) ≤ (gridCols n : ℚ) - 1 := by
    have h1 : i % gridCols n + 1 ≤ gridCols n := hcol
    have h2 : ((i % gridCols n + 1 : ℕ) : ℚ) ≤ ((gridCols n : ℕ) : ℚ) :=
      Nat.cast_le.mpr h1
    push_cast at h2
    linarith
  have hrowq : ((i / gridCols n : ℕ) : ℚ) ≤ (gridRows n : ℚ) - 1 := by
    have h1 : i / gridCols n + 1 ≤ gridRows n := hrow
    have h2 : ((i / gridCols n + 1 : ℕ) : ℚ) ≤ ((gridRows n : ℕ) : ℚ) :=
      Nat.cast_le.mpr h1
    push_cast at h2
    linarith
  have hcol0 : (0:ℚ) ≤ ((i % gridCols n : ℕ) : ℚ) := Nat.cast_nonneg _
  have hrow0 : (0:ℚ) ≤ ((i / gridCols n : ℕ) : ℚ) := Nat.cast_nonneg _
  have hm : (0:ℚ) ≤ gridMargin := by norm_num [gridMargin, inches, emuPerInch]
  have hmulx : ((i % gridCols n : ℕ) : ℚ) * (cellW (gridCols n) + gridGap)
      ≤ ((gridCols n : ℚ) - 1) * (cellW (gridCols n) + gridGap) :=
    mul_le_mul_of_nonneg_right hcolq hX.le
  have hmuly : ((i / gridCols n : ℕ) : ℚ) * (cellH (gridRows n) + gridGap)
      ≤ ((gridRows n : ℚ) - 1) * (cellH (gridRows n) + gridGap) :=
    mul_le_mul_of_nonneg_right hrowq hY.le
  have hright := grid_col_right hc
  have hbottom := grid_row_bottom hr
  have hx0 : 0 ≤ ((i % gridCols n : ℕ) : ℚ) * (cellW (gridCols n) + gridGap) :=
    mul_nonneg hcol0 hX.le
  have hy0 : 0 ≤ ((i / gridCols n : ℕ) : ℚ) * (cellH (gridRows n) + gridGap) :=
    mul_nonneg hrow0 hY.le
  refine ⟨by linarith, by linarith, by linarith, by linarith⟩

/-- Distinct items get disjoint grid cells. -/
lemma gridRegion_disjoint {n i j : ℕ} (hi : i < n) (hj : j < n) (hij : i ≠ j)
    (p : ℚ × ℚ) :
    ¬(inRegion (gridRegion n i) p ∧ inRegion (gridRegion n j) p) := by
  rintro ⟨hpi, hpj⟩
  have hn : 1 ≤ n := by omega
  have hc : 1 ≤ gridCols n := gridCols_pos hn
  simp only [inRegion, gridRegion] at hpi hpj
  obtain ⟨hi1, hi2, hi3, hi4⟩ := hpi
  obtain ⟨hj1, hj2, hj3, hj4⟩ := hpj
  have hgap : (0:ℚ) < gridGap := by norm_num [gridGap, inches, emuPerInch]
  by_cases hcol : i % gridCols n = j % gridCols n
  · have hrow : i / gridCols n ≠ j / gridCols n := by
      intro h
      apply hij
      have d1 := Nat.div_add_mod i (gridCols n)
      have d2 := Nat.div_add_mod j (gridCols n)
      rw [h, hcol] at d1
      omega
    have hwlt : cellH (gridRows n) < cellH (gridRows n) + gridGap := by linarith
    rcases Nat.lt_or_ge (i / gridCols n) (j / gridCols n) with h | h
    · exact slots1d_disjoint h hwlt hi3 hi4 hj3
    · have h2 : j / gridCols n < i / gridCols n := by omega
      exact slots1d_disjoint h2 hwlt hj3 hj4 hi3
  · have hwlt : cellW (gridCols n) < cellW (gridCols n) + gridGap := by linarith
    rcases Nat.lt_or_ge (i % gridCols n) (j % gridCols n) with h | h
    · exact slots1d_disjoint h hwlt hi1 hi2 hj1
    · have h2 : j % gridCols n < i % gridCols n := by omega
      exact slots1d_disjoint h2 hwlt hj1 hj2 hi1

/-- The full statement of the grid-layout claim for
`SlideRenderer.render_grid` (`ppt_agent.py`): the lookup table, the row-major
placement formula, and exactly `n` pairwise disjoint regions contained in the
canvas minus the header band. -/
def GridLayoutProp (n : ℕ) : Prop :=
  renderGridPA n = Except.ok ((List.range n).map (gridRegion n))
  ∧ ((List.range n).map (gridRegion n)).length = n
  ∧ (n ≤ 3 → gridCols n = n ∧ gridRows n = 1)
  ∧ (n = 4 → gridCols n = 2 ∧ gridRows n = 2)
  ∧ (5 ≤ n → n ≤ 6 → gridCols n = 3 ∧ gridRows n = 2)
  ∧ (7 ≤ n → gridCols n = 3 ∧ gridRows n = Nat.ceil ((n : ℚ) / 3))
  ∧ (∀ i, i < n →
      (gridRegion n i).x
        = gridMargin + ((i % gridCols n : ℕ) : ℚ) * (cellW (gridCols n) + gridGap)
      ∧ (gridRegion n i).y
        = gridStartY + ((i / gridCols n : ℕ) : ℚ) * (cellH (gridRows n) + gridGap))
  ∧ (∀ i j, i < n → j < n → i ≠ j →
      ∀ p : ℚ × ℚ, ¬(inRegion (gridRegion n i) p ∧ inRegion (gridRegion n j) p))
  ∧ (∀ i, i < n → ∀ p : ℚ × ℚ, inRegion (gridRegion n i) p → inContentBand p)

/-- C2 (amended): `render_grid` satisfies the column/row table, row-major
placement, and produces exactly `n` non-overlapping regions inside the canvas
minus the header band, for every `n ≥ 1`.  (The `_greedy_grid` variant of
`ppt_agent_provider.py` deviates from the table at `n = 1, 2`; see the
counterexample.) -/
theorem grid_layout_table (n : ℕ) (hn : 1 ≤ n) : GridLayoutProp n := by
  refine ⟨renderGridPA_ok hn, by simp, ?_, ?_, ?_, ?_, ?_, ?_, ?_⟩
  · intro h
    unfold gridCols gridRows
    rw [if_pos h, if_pos h]
    exact ⟨rfl, rfl⟩
  · intro h
    subst h
    norm_num [gridCols, gridRows]
  · intro h5 h6
    refine ⟨gridCols_eq_of_five_le h5, ?_⟩
    rw [gridRows_eq_of_five_le h5]
    omega
  · intro h7
    refine ⟨gridCols_eq_of_five_le (by omega), ?_⟩
    unfold gridRows
    rw [if_neg (by omega), if_neg (by omega)]
  · intro i _
    exact ⟨rfl, rfl⟩
  · intro i j hi hj hij p
    exact gridRegion_disjoint hi hj hij p
  · intro i hi p hp
    exact gridRegion_subset hn hi hp

/-- Witness for C2 at the concrete count `n = 5`. -/
theorem grid_layout_table_witness : (1 : ℕ) ≤ 5 ∧ GridLayoutProp 5 :=
  ⟨by norm_num, grid_layout_table 5 (by norm_num)⟩

/-- C2 counterexample: `_greedy_grid` (`ppt_agent_provider.py`) does not
follow the claimed table for `N = 1` and `N = 2` — both fall into the `else`
branch and get 3 columns instead of `N`. -/
theorem greedy_grid_table_counterexample :
    greedyCols 1 = 3 ∧ greedyCols 2 = 3 ∧ greedyCols 1 ≠ 1 ∧ greedyCols 2 ≠ 2 := by
  refine ⟨rfl, rfl, by decide, by decide⟩

/-! ### Claims C5 and C6: the card-content sub-layout -/

/-- Top of the description text box in `SlideRenderer._draw_card_content`
(`ppt_agent.py` lines 308-331, same in `openai_provider.py`): the cursor
starts at `y + Inches(0.2)` and advances by `Inches(0.8)` after the title in
grid mode, `Inches(0.7)` in timeline mode. -/
def descTop (y : ℚ) (isTimeline : Bool) : ℚ :=
  y + inches (2/10) + (if isTimeline then inches (7/10) else inches (8/10))

/-- Description-band height in `_draw_card_content` (`ppt_agent.py` lines
332-334): `desc_h = Inches(0.8)`, replaced by
`(y + h) - cursor_y - Inches(0.2)` when the item has no `specs`. -/
def descHeightPA (y h : ℚ) (isTimeline : Bool) (specsEmpty : Bool) : ℚ :=
  if specsEmpty then (y + h) - descTop y isTimeline - inches (2/10)
  else inches (8/10)

/-- Top of the description text box in `SlideRenderer.render_grid` of
`ppt_agent_provider.py` (line 196): `cy + Inches(0.4)` with
`cy = y + Inches(0.2)`. -/
def descTopPP (y : ℚ) : ℚ := y + inches (2/10) + inches (4/10)

/-- Description-box height in `render_grid` of `ppt_agent_provider.py`
(line 196): the fixed `Inches(0.8)`, regardless of the item's `specs` and of
the card height. -/
def descHeightPP : ℚ := inches (8/10)

/-- Cursor position at the top of the spec rows in `_draw_card_content`
(`ppt_agent.py` lines 343-350): after the description the cursor advances by
the fixed `Inches(0.8)`, then by `Inches(0.1)` past the separator. -/
def specRowsTop (y : ℚ) (isTimeline : Bool) : ℚ :=
  descTop y isTimeline + inches (8/10) + inches (1/10)

/-- `rem_h = (y + h) - cursor_y - Inches(0.1)` (`ppt_agent.py` line 351). -/
def specRemH (y h : ℚ) (isTimeline : Bool) : ℚ :=
  (y + h) - specRowsTop y isTimeline - inches (1/10)

/-- The spec rows drawn by `_draw_card_content` (`ppt_agent.py` lines
345-373, identical guard in `openai_provider.py` lines 352-383): the whole
block runs only for non-empty `specs`; rows are drawn only when `rem_h > 0`,
each as `(ry, row_h)` with `row_h = rem_h / len(specs)` and
`ry = cursor_y + idx * row_h`.  When `rem_h ≤ 0` no row is drawn at all. -/
def specRows (y h : ℚ) (isTimeline : Bool) (numSpecs : ℕ) : List (ℚ × ℚ) :=
  if numSpecs = 0 then []
  else if 0 < specRemH y h isTimeline then
    (List.range numSpecs).map fun (idx : ℕ) =>
      (specRowsTop y isTimeline + ((idx : ℕ) : ℚ) * (specRemH y h isTimeline / (numSpecs : ℚ)),
       specRemH y h isTimeline / (numSpecs : ℚ))
  else []

/-- C5 counterexample: a grid card of height `Inches(1)` with one spec entry
has `rem_h = -Inches(1) ≤ 0`, and `_draw_card_content` then draws zero spec
rows — it skips them instead of clamping to a minimum positive row height. -/
theorem spec_rows_skipped_counterexample :
    specRemH 0 (inches 1) false ≤ 0 ∧ specRows 0 (inches 1) false 1 = [] := by
  have h : specRemH 0 (inches 1) false = -(inches 1) := by
    norm_num [specRemH, specRowsTop, descTop, inches, emuPerInch]
  constructor
  · rw [h]; norm_num [inches, emuPerInch]
  · unfold specRows
    rw [if_neg (by norm_num), if_neg (by rw [h]; norm_num [inches, emuPerInch])]

/-- The amended behaviour of the spec-row sub-layout: with non-empty `specs`,
when `rem_h > 0` there is one row per spec entry, each of the positive height
`rem_h / len(specs)`; when `rem_h ≤ 0` no rows are drawn (no negative-size
draw calls, but no clamping either). -/
def SpecRowsProp (y h : ℚ) (isTimeline : Bool) (numSpecs : ℕ) : Prop :=
  (0 < specRemH y h isTimeline →
    (specRows y h isTimeline numSpecs).length = numSpecs
    ∧ ∀ pr ∈ specRows y h isTimeline numSpecs,
        pr.2 = specRemH y h isTimeline / (numSpecs : ℚ) ∧ 0 < pr.2)
  ∧ (specRemH y h isTimeline ≤ 0 → specRows y h isTimeline numSpecs = [])

/-- C5 (amended): each spec row gets height `rem_h / len(specs)` (positive)
when `rem_h > 0`, and the rows are skipped entirely when `rem_h ≤ 0`. -/
theorem spec_rows_layout (y h : ℚ) (isTimeline : Bool) (numSpecs : ℕ)
    (hn : 1 ≤ numSpecs) : SpecRowsProp y h isTimeline numSpecs := by
  have hn0 : ¬(numSpecs = 0) := by omega
  constructor
  · intro hrem
    unfold specRows
    rw [if_neg hn0, if_pos hrem]
    refine ⟨by rw [List.length_map, List.length_range], ?_⟩
    intro pr hpr
    rw [List.mem_map] at hpr
    obtain ⟨idx, _, rfl⟩ := hpr
    refine ⟨rfl, ?_⟩
    have hq : (0:ℚ) < (numSpecs : ℚ) := by exact_mod_cast hn
    exact div_pos hrem hq
  · intro hrem
    unfold specRows
    rw [if_neg hn0, if_neg (not_lt.mpr hrem)]

/-- Witness for C5 at a concrete tall card: `y = 0`, `h = Inches(4)`,
grid mode, two spec entries. -/
theorem spec_rows_layout_witness : (1 : ℕ) ≤ 2 ∧ SpecRowsProp 0 (inches 4) false 2 :=
  ⟨by norm_num, spec_rows_layout 0 (inches 4) false 2 (by norm_num)⟩

/-- C6 counterexample: in `render_grid` of `ppt_agent_provider.py` the
description box of an empty-specs card at `y = 0` of height `Inches(5)` ends
at `Inches(1.4)`, far above the card bottom `Inches(5)` (minus the
`Inches(0.2)` bottom margin used by `_draw_card_content`): the band does not
expand to fill the remaining vertical space. -/
theorem desc_band_provider_counterexample :
    descTopPP 0 + descHeightPP = inches (7/5)
    ∧ inches (7/5) < 0 + inches 5 - inches (2/10) := by
  constructor
  · norm_num [descTopPP, descHeightPP, inches, emuPerInch]
  · norm_num [inches, emuPerInch]

/-- C6 (amended): in `_draw_card_content` an empty-specs card gets a
description band reaching exactly down to `y + h - Inches(0.2)`, and a card
with specs gets the fixed `Inches(0.8)` band; in `ppt_agent_provider.py`
`render_grid` the description height is the constant `Inches(0.8)` whatever
the specs. -/
theorem desc_band_layout :
    ∀ (y h : ℚ) (isTimeline : Bool),
      descTop y isTimeline + descHeightPA y h isTimeline true = y + h - inches (2/10)
      ∧ descHeightPA y h isTimeline false = inches (8/10)
      ∧ descHeightPP = inches (8/10) := by
  intro y h isTimeline
  refine ⟨?_, rfl, rfl⟩
  unfold descHeightPA
  rw [if_pos rfl]
  ring

/-! ### Claim C7: dispatch with an absent items field -/

/-- One content unit of the plan (§3 of the spec, the item dict of the
planner schema). -/
structure Item where
  id : String
  title : String
  desc : String
  specs : List (String × String)
deriving Repr

/-- `plan['meta']`: `layout_type` may be absent (`.get` with default). -/
structure PlanMeta where
  layout_type : Option String

/-- `plan['content']`: `items` may be absent from the dict. -/
structure PlanContent where
  main_title : Option String
  subtitle : Option String
  items : Option (List Item)

/-- The root plan artifact. -/
structure Plan where
  meta : PlanMeta
  content : PlanContent

/-- `SlideRenderer.dispatch` of `ppt_agent.py` (lines 375-382): background and
header always succeed; `layout = plan['meta'].get('layout_type', 'grid')`;
then both branches subscript `plan['content']['items']` directly, which
raises `KeyError` when the key is absent. -/
def dispatchPA (plan : Plan) : Except String (List Region) :=
  let layout := plan.meta.layout_type.getD "grid"
  match plan.content.items with
  | none => Except.error "KeyError: items"
  | some items =>
      if layout = "timeline" then (renderTimelinePA items.length).2
      else renderGridPA items.length

/-- `SlideRenderer.dispatch` of `ppt_agent_provider.py` (lines 224-227):
uses `plan['content'].get('items', [])` and always renders the grid via
`_greedy_grid(len(items), Inches(1.8))`. -/
def dispatchPP (plan : Plan) : Except String (List Region) :=
  greedyGridPP (plan.content.items.getD []).length (inches (9/5))

/-- A plan whose `content` lacks the `items` field. -/
def planWithoutItems : Plan :=
  { meta := { layout_type := some "grid" }
    content := { main_title := some "Title", subtitle := some "Sub", items := none } }

/-- C7: rendering a plan without an `items` field is fatal in both cited
dispatchers — `ppt_agent.py` raises `KeyError` subscripting
`plan['content']['items']`, and `ppt_agent_provider.py` substitutes the empty
list but then `_greedy_grid(0, ...)` raises `ZeroDivisionError` — contrary to
the claimed treat-as-empty behaviour. -/
theorem dispatch_missing_items_behavior :
    dispatchPA planWithoutItems = Except.error "KeyError: items"
    ∧ dispatchPP planWithoutItems = Except.error "ZeroDivisionError" := by
  constructor
  · rfl
  · show greedyGridPP 0 (inches (9/5)) = Except.error "ZeroDivisionError"
    exact greedyGridPP_zero

/-! ### Claim C4: the exporter and its placeholder fallback -/

/-- Environment of one export call: whether the platform automation bridge
(win32com + PowerPoint) is importable, and whether invoking it raises. -/
structure BridgeEnv where
  win32Available : Bool
  bridgeRaises : Bool

/-- The raster file present at the output path after an export attempt:
either the JPG produced by the PowerPoint bridge, or a synthesized
placeholder of the given pixel dimensions. -/
inductive RasterFile where
  | bridgeJpg
  | placeholder (width height : ℕ)
deriving DecidableEq, Repr

/-- An image with readable dimensions at least 1 x 1. -/
def usableDims : RasterFile → Bool
  | RasterFile.bridgeJpg => true
  | RasterFile.placeholder w h => decide (1 ≤ w) && decide (1 ≤ h)

/-- `PPTExporter.export` of `ppt_agent.py` (lines 389-430): when win32com is
unavailable it writes the 1280 x 720 placeholder, when the bridge call raises
it writes the same placeholder, otherwise the bridge JPG lands at the output
path.  The method itself returns no failure value in any case.  (The
placeholder writer assumes normal filesystem availability, matching the
claim.) -/
def exportPA (env : BridgeEnv) : RasterFile :=
  if env.win32Available = false then RasterFile.placeholder 1280 720
  else if env.bridgeRaises then RasterFile.placeholder 1280 720
  else RasterFile.bridgeJpg

/-- `PPTExporter.export_first_slide_as_jpg` of `ppt_agent_provider.py`
(lines 237-289): returns `None` when win32com is unavailable, returns `None`
when the COM call raises, and writes no placeholder in either case; only on
success does it return the written JPG. -/
def exportFirstSlideAsJpgPP (env : BridgeEnv) : Option RasterFile :=
  if env.win32Available = false then none
  else if env.bridgeRaises then none
  else some RasterFile.bridgeJpg

/-- C4 counterexample: with the automation bridge unavailable,
`export_first_slide_as_jpg` returns the failure value `None` and synthesizes
no placeholder image, contradicting the claimed never-fail guarantee for that
cited exporter. -/
theorem export_provider_counterexample :
    exportFirstSlideAsJpgPP { win32Available := false, bridgeRaises := false } = none := rfl

/-- C4 (amended): `PPTExporter.export` in `ppt_agent.py` always leaves a
usable raster (the 1280 x 720 placeholder when the bridge is unavailable or
raises) and never surfaces a failure, while `export_first_slide_as_jpg` in
`ppt_agent_provider.py` returns `None` exactly when the bridge is unavailable
or its call raises. -/
theorem export_always_usable :
    ∀ env : BridgeEnv,
      usableDims (exportPA env) = true
      ∧ (exportFirstSlideAsJpgPP env = none
          ↔ (env.win32Available = false ∨ env.bridgeRaises = true)) := by
  intro env
  obtain ⟨w32, br⟩ := env
  cases w32 <;> cases br <;> simp [exportPA, exportFirstSlideAsJpgPP, usableDims]

/-! ### Claim C8: asset resolution always sets a local path -/

/-- `os.path.join(assets_dir, filename)` for our purposes. -/
def joinPath (dir fname : String) : String := dir ++ "/" ++ fname

/-- A joined path is never the empty (falsy) string. -/
lemma joinPath_ne_empty (dir fname : String) : joinPath dir fname ≠ "" := by
  intro hcontra
  have hlen : (joinPath dir fname).length = 0 := by rw [hcontra]; rfl
  have hone : ("/" : String).length = 1 := rfl
  rw [joinPath, String.length_append, String.length_append, hone] at hlen
  omega

/-- One planned image reference (`assets.images` entry): `target_id`,
`prompt`, and the `local_path` that resolution is to populate. -/
structure ImageRequest where
  target_id : String
  prompt : String
  local_path : Option String
deriving Repr

/-- Environment of one generation attempt in
`ProductionAgent._generate_qwen_api_image` (`ppt_agent.py` lines 150-173):
whether a caller-supplied callback is present, whether it completes and
returns a truthy image that saves successfully, and whether the remote Qwen
backend replies with success.  Filesystem writes are assumed to succeed
(normal filesystem availability). -/
structure GenEnv where
  callbackPresent : Bool
  callbackWorks : Bool
  qwenSucceeds : Bool

/-- `ProductionAgent._create_local_pil_mock` (`ppt_agent.py` lines 175-186,
`openai_provider.py` lines 131-146): draws the deterministic placeholder and
always returns `os.path.join(assets_dir, filename)`. -/
def createLocalPilMock (assetsDir fname : String) : String := joinPath assetsDir fname

/-- `ProductionAgent._generate_qwen_api_image`: tries the callback (any
exception or falsy image silently falls through), then the remote backend
(any transport error or non-success status falls through), then the local
mock, which cannot fail; every stage writes to the same joined path. -/
def generateQwenApiImage (env : GenEnv) (assetsDir fname : String) : String :=
  if env.callbackPresent && env.callbackWorks then joinPath assetsDir fname
  else if env.qwenSucceeds then joinPath assetsDir fname
  else createLocalPilMock assetsDir fname

/-- The filename `f"{img.get('target_id')}_{int(time.time())}.png"`; the
timestamp is abstracted to a fixed tag. -/
def assetFname (img : ImageRequest) : String := img.target_id ++ "_ts.png"

/-- The per-request body of `ProductionAgent.produce_assets` (`ppt_agent.py`
lines 188-196): mock or chain generation, then `if path:` set
`local_path`. -/
def resolveOnePA (env : GenEnv) (useMock : Bool) (assetsDir : String)
    (img : ImageRequest) : ImageRequest :=
  let path := if useMock then createLocalPilMock assetsDir (assetFname img)
              else generateQwenApiImage env assetsDir (assetFname img)
  if path = "" then img else { img with local_path := some path }

/-- `ProductionAgent.produce_assets` of `ppt_agent.py`: resolves every entry
of `assets.images`. -/
def produceAssetsPA (env : GenEnv) (useMock : Bool) (assetsDir : String)
    (imgs : List ImageRequest) : List ImageRequest :=
  imgs.map (resolveOnePA env useMock assetsDir)

/-- `ProductionAgent.produce_assets` of `openai_provider.py` (lines 148-169):
always resolves via the local mock, then `if path:` sets `local_path`. -/
def produceAssetsOA (assetsDir : String) (imgs : List ImageRequest) : List ImageRequest :=
  imgs.map fun img =>
    let path := createLocalPilMock assetsDir (assetFname img)
    if path = "" then img else { img with local_path := some path }

lemma resolveOnePA_sets_path (env : GenEnv) (useMock : Bool) (assetsDir : String)
    (img : ImageRequest) : (resolveOnePA env useMock assetsDir img).local_path.isSome = true := by
  have hpath : (if useMock then createLocalPilMock assetsDir (assetFname img)
      else generateQwenApiImage env assetsDir (assetFname img))
      = joinPath assetsDir (assetFname img) := by
    cases useMock
    · unfold generateQwenApiImage createLocalPilMock
      split_ifs <;> rfl
    · rfl
  simp only [resolveOnePA]
  rw [hpath, if_neg (joinPath_ne_empty assetsDir (assetFname img))]
  rfl

/-- C8: for every environment (callback present or not, callback failing or
not, remote backend failing or not) and every list of image requests, both
cited `produce_assets` implementations leave `local_path` set on every entry:
each stage's failure falls through and the final local placeholder stage
always yields a path. -/
theorem produce_assets_sets_local_path :
    ∀ (env : GenEnv) (useMock : Bool) (assetsDir : String) (imgs : List ImageRequest),
      ((produceAssetsPA env useMock assetsDir imgs).all fun r => r.local_path.isSome) = true
      ∧ ((produceAssetsOA assetsDir imgs).all fun r => r.local_path.isSome) = true := by
  intro env useMock assetsDir imgs
  constructor
  · rw [List.all_eq_true]
    intro r hr
    rw [produceAssetsPA, List.mem_map] at hr
    obtain ⟨img, _, rfl⟩ := hr
    exact resolveOnePA_sets_path env useMock assetsDir img
  · rw [List.all_eq_true]
    intro r hr
    rw [produceAssetsOA, List.mem_map] at hr
    obtain ⟨img, _, rfl⟩ := hr
    simp only []
    rw [if_neg (show ¬(createLocalPilMock assetsDir (assetFname img) = "") from
      joinPath_ne_empty assetsDir (assetFname img))]
    rfl

/-! ### Claim C9: idempotent background asset creation -/

/-- The fixed background asset name `BACKGROUND_IMG_NAME = "tech_bg_v3.png"`. -/
def backgroundImgName : String := "tech_bg_v3.png"

/-- The background file path inside one asset directory. -/
def bgFilePath (assetsDir : String) : String := joinPath assetsDir backgroundImgName

/-- `ProductionAgent._create_tech_background_asset` (`ppt_agent.py` lines
134-148, identically `openai_provider.py` lines 113-129): if the file already
exists return its path at once (no write); otherwise draw the background,
save it, and return the path.  The filesystem is modelled as the list of
existing paths; the `Bool` records whether this call wrote the file. -/
def createTechBackgroundAsset (fs : List String) (assetsDir : String) :
    List String × String × Bool :=
  let filepath := bgFilePath assetsDir
  if filepath ∈ fs then (fs, filepath, false)
  else (filepath :: fs, filepath, true)

/-- C9: background creation is idempotent per asset directory — the second of
two successive calls returns the same path, writes nothing, and leaves the
filesystem unchanged, so across repeated calls the file is written at most
once (exactly once when it did not already exist). -/
theorem background_asset_idempotent :
    ∀ (fs : List String) (assetsDir : String),
      (createTechBackgroundAsset (createTechBackgroundAsset fs assetsDir).1 assetsDir).2.1
          = (createTechBackgroundAsset fs assetsDir).2.1
      ∧ (createTechBackgroundAsset (createTechBackgroundAsset fs assetsDir).1 assetsDir).2.2
          = false
      ∧ (createTechBackgroundAsset (createTechBackgroundAsset fs assetsDir).1 assetsDir).1
          = (createTechBackgroundAsset fs assetsDir).1
      ∧ ((createTechBackgroundAsset fs assetsDir).2.2 = true ↔ bgFilePath assetsDir ∉ fs) := by
  intro fs assetsDir
  by_cases hmem : bgFilePath assetsDir ∈ fs
  · simp [createTechBackgroundAsset, hmem]
  · simp [createTechBackgroundAsset, hmem]

/-! ### Claim C10: the export service -/

/-- `ExportService.create_pdf_from_images` (`export_service.py` lines
72-121): iterates the input paths in order, skipping every path that does not
exist on disk; raises `ValueError` exactly when the collected image list is
empty; otherwise produces the PDF from the surviving images in input order.
The result models the ordered image content of the produced PDF. -/
def createPdfFromImages (fileExists : String → Bool) (imagePaths : List String) :
    Except String (List String) :=
  let images := imagePaths.foldl (fun acc p => if fileExists p then acc ++ [p] else acc) []
  if images = [] then Except.error "No valid images found for PDF export"
  else Except.ok images

/-- `ExportService.create_pptx_from_images` (`export_service.py` lines
22-69): iterates the input paths in order, skipping missing ones, adding one
full-bleed slide per surviving image; an all-missing input yields a zero-slide
presentation and no error.  The result models the ordered slide content. -/
def createPptxFromImages (fileExists : String → Bool) (imagePaths : List String) :
    List String :=
  imagePaths.foldl (fun slides p => if fileExists p then slides ++ [p] else slides) []

lemma foldl_append_filter (fileExists : String → Bool) (imagePaths : List String)
    (acc : List String) :
    imagePaths.foldl (fun a p => if fileExists p then a ++ [p] else a) acc
      = acc ++ imagePaths.filter (fun p => fileExists p) := by
  induction imagePaths generalizing acc with
  | nil => simp
  | cons hd tl ih =>
      cases hex : fileExists hd <;>
        simp [List.foldl_cons, List.filter_cons, hex, ih, List.append_assoc]

/-- C10: the PDF export raises `ValueError` exactly when no input path exists
and otherwise returns the existing images in input order, while the PPTX
export never raises and returns one slide per existing image in input order
(so an all-missing input gives a zero-slide presentation). -/
theorem export_service_pdf_pptx :
    ∀ (fileExists : String → Bool) (imagePaths : List String),
      createPdfFromImages fileExists imagePaths
        = (if imagePaths.all (fun p => !(fileExists p))
           then Except.error "No valid images found for PDF export"
           else Except.ok (imagePaths.filter (fun p => fileExists p)))
      ∧ createPptxFromImages fileExists imagePaths
        = imagePaths.filter (fun p => fileExists p) := by
  intro fileExists imagePaths
  have hfold := foldl_append_filter fileExists imagePaths []
  constructor
  · unfold createPdfFromImages
    rw [hfold, List.nil_append]
    by_cases hc : imagePaths.filter (fun p => fileExists p) = []
    · rw [if_pos hc, if_pos ?_]
      rw [List.all_eq_true]
      intro p hp
      rw [List.filter_eq_nil_iff] at hc
      simp [hc p hp]
    · rw [if_neg hc, if_neg ?_]
      intro hall
      apply hc
      rw [List.filter_eq_nil_iff]
      rw [List.all_eq_true] at hall
      intro p hp
      have hx := hall p hp
      simpa using hx
  · unfold createPptxFromImages
    rw [hfold, List.nil_append]
